import Mathlib

/-!
Verification of the clinic backend (contact / appointment / blog / subscriber
CRUD API) against its specification.

The embedding below translates the relevant TypeScript sources:

* `src/models/Appointment.ts` (schema defaults, date validator, pre-save hook),
* `src/routes/appointment.ts` (create / list / update / confirm handlers),
* `src/routes/contact.ts` (create / list handlers),
* `src/models/Subscriber.ts` and `src/routes/subscriber.ts`,
* `src/models/Blog.ts` (pre-save hook, slug uniqueness) and `src/routes/blog.ts`.

Conventions of the embedding:

* Calendar instants (`Date` values) are modelled as `Nat` time stamps; the
  route handlers receive the already-midnight-normalised `today` and the
  current instant `now` as explicit parameters.
* `undefined` / absent document fields are modelled as `Option`.
* The external input-validation library checks that are not plain string or
  range computations (`isEmail`, `isURL`) are passed in as function
  parameters: the spec places the validation-library mechanics out of scope.
* Mongoose marks a path as modified only when it is assigned a value that
  differs from the current one; the pre-save hooks receive this
  `statusModified` flag explicitly, computed at each call site from the old
  and the new status.
* An HTTP handler finishes either with a response (`HandlerResult.resp`)
  carrying its status code, or with a thrown error that escapes to the error
  middleware (`HandlerResult.raise`), optionally carrying the `statusCode`
  attached by `createError`.
-/

/-- Modelled from the spec: the error-handling middleware
(`src/middleware/errorHandler.ts`, whose source is not part of the
repository snapshot) receives errors thrown inside `asyncHandler` wrappers.
A handler run therefore either produced a response with an HTTP status, or
raised an error; `createError(message, status)` attaches the status code the
middleware will answer with, while plain errors (e.g. transport failures)
carry none and are answered as unhandled (500). -/
inductive HandlerResult where
  | resp (status : Nat)
  | raise (statusCode : Option Nat)
deriving DecidableEq, Repr

/-- Appointment status enum of `src/models/Appointment.ts`. -/
inductive AppointmentStatus where
  | pending
  | confirmed
  | cancelled
  | completed
  | noShow
deriving DecidableEq, Repr

/-- Priority enum shared by the Appointment and Contact schemas. -/
inductive Priority where
  | low
  | medium
  | high
deriving DecidableEq, Repr

/-- Valid treatment types (`src/routes/appointment.ts`, `validTreatmentTypes`,
mirrored by the schema enum in `src/models/Appointment.ts`). -/
def validTreatmentTypes : List String :=
  ["Acne Treatment", "Anti-Aging Treatment", "Chemical Peels",
   "Pigmentation Treatment", "Hair Transplant", "PRP Hair Therapy",
   "Hair Loss Treatment", "Scalp Treatment", "Laser Hair Removal",
   "Laser Skin Resurfacing", "Laser Tattoo Removal",
   "Laser Pigmentation Removal", "General Consultation"]

/-- Valid time slots (`src/routes/appointment.ts`, `validTimeSlots`). -/
def validTimeSlots : List String :=
  ["9:00 AM", "10:00 AM", "11:00 AM", "12:00 PM", "2:00 PM",
   "3:00 PM", "4:00 PM", "5:00 PM", "6:00 PM"]

/-- An appointment document (`src/models/Appointment.ts`). Dates are `Nat`
time stamps, absent optional fields are `none`. -/
structure Appointment where
  id : Nat
  name : String
  email : String
  phone : String
  treatmentType : String
  preferredDate : Nat
  preferredTime : String
  message : Option String
  status : AppointmentStatus
  priority : Priority
  confirmedDate : Option Nat
  confirmedTime : Option String
  actualDate : Option Nat
  actualTime : Option String
  duration : Nat
  notes : Option String
  assignedTo : Option String
  tags : List String
  reminderSent : Bool
  cancelledAt : Option Nat
  cancelledReason : Option String
deriving DecidableEq, Repr

/-- The pre-save middleware of `AppointmentSchema` (`src/models/Appointment.ts`):
on a save with the status path modified it fills `confirmedDate`/`confirmedTime`
from the preferred values when confirming without them, stamps `cancelledAt`
when cancelling without a stamp, and fills `actualDate`/`actualTime` from the
confirmed values (falling back to the preferred ones) when completing without
an actual date. -/
def appointmentPreSave (statusModified : Bool) (now : Nat) (a : Appointment) :
    Appointment :=
  let a1 :=
    if statusModified = true ∧ a.status = .confirmed ∧ a.confirmedDate = none then
      { a with confirmedDate := some a.preferredDate,
               confirmedTime := some a.preferredTime }
    else a
  let a2 :=
    if statusModified = true ∧ a1.status = .cancelled ∧ a1.cancelledAt = none then
      { a1 with cancelledAt := some now }
    else a1
  if statusModified = true ∧ a2.status = .completed ∧ a2.actualDate = none then
    { a2 with actualDate := some (a2.confirmedDate.getD a2.preferredDate),
              actualTime := some (a2.confirmedTime.getD a2.preferredTime) }
  else a2

/-- Assigning a status to a document and saving it: the path counts as
modified exactly when the assigned value differs from the stored one, and the
pre-save middleware then runs. -/
def saveWithStatus (s : AppointmentStatus) (now : Nat) (a : Appointment) :
    Appointment :=
  appointmentPreSave (decide (¬ a.status = s)) now { a with status := s }

/-- The body of a booking request (`POST /api/appointment`). -/
structure AppointmentRequest where
  name : String
  email : String
  phone : String
  treatmentType : String
  preferredDate : Nat
  preferredTime : String
  message : Option String
deriving DecidableEq, Repr

/-- One character of the phone pattern class of
`src/routes/appointment.ts` (digits, whitespace, dashes, parentheses). -/
def phoneCharOk (c : Char) : Bool :=
  c.isDigit || c.isWhitespace || c = '-' || c = '(' || c = ')'

/-- The phone regex of `src/routes/appointment.ts`: an optional leading plus
sign followed by at least one character of the allowed class. -/
def phoneMatches (s : String) : Bool :=
  match s.toList with
  | [] => false
  | c :: rest =>
      if c = '+' then !rest.isEmpty && rest.all phoneCharOk
      else (c :: rest).all phoneCharOk

/-- The `.trim()` sanitizer of the validation library: drop the whitespace at
both ends of the string (written on the character list so that it is fully
executable). -/
def jsTrim (s : String) : String :=
  String.mk
    (((s.toList.dropWhile Char.isWhitespace).reverse.dropWhile
        Char.isWhitespace).reverse)

/-- Character-wise lower-casing (an executable model of `toLowerCase`). -/
def lowerString (s : String) : String := String.mk (s.toList.map Char.toLower)

/-- The `normalizeEmail` sanitizer of the validation library composed with the
schema-level `lowercase: true` setter; both lower-case the address (the
remaining mechanics of the external sanitizer are out of the spec's scope). -/
def normalizeEmail (s : String) : String := lowerString s

/-- `appointmentValidation` of `src/routes/appointment.ts`: the booking body
passes when every field check succeeds. The `.trim()` sanitizers run before
the length checks; the custom `preferredDate` check rejects a date strictly
before the midnight-normalised current date. The external `isEmail` check is
a parameter. -/
def appointmentValidationPasses (isEmail : String → Bool) (today : Nat)
    (r : AppointmentRequest) : Bool :=
  decide (2 ≤ (jsTrim r.name).length) && decide ((jsTrim r.name).length ≤ 100) &&
  isEmail r.email &&
  phoneMatches (jsTrim r.phone) &&
  decide (10 ≤ (jsTrim r.phone).length) && decide ((jsTrim r.phone).length ≤ 20) &&
  validTreatmentTypes.contains r.treatmentType &&
  decide (¬ r.preferredDate < today) &&
  validTimeSlots.contains r.preferredTime &&
  (match r.message with
   | none => true
   | some m => decide ((jsTrim m).length ≤ 1000))

/-- The document built by the create handler (`new Appointment({...})` in
`src/routes/appointment.ts`) together with the schema defaults of
`src/models/Appointment.ts`: status `pending` and priority `medium` are set
explicitly by the handler, `duration` defaults to 60, `reminderSent` to
`false`, `tags` to an empty list, and every other optional field is unset. -/
def mkAppointment (fresh : Nat) (r : AppointmentRequest) : Appointment :=
  { id := fresh
    name := (jsTrim r.name)
    email := normalizeEmail r.email
    phone := (jsTrim r.phone)
    treatmentType := r.treatmentType
    preferredDate := r.preferredDate
    preferredTime := r.preferredTime
    message := r.message.map jsTrim
    status := .pending
    priority := .medium
    confirmedDate := none
    confirmedTime := none
    actualDate := none
    actualTime := none
    duration := 60
    notes := none
    assignedTo := none
    tags := []
    reminderSent := false
    cancelledAt := none
    cancelledReason := none }

/-- `POST /api/appointment` (`src/routes/appointment.ts`): validate, persist,
then attempt the two notification emails. Each send sits in its own
`try`/`catch` whose handler only logs, so `userEmailOk` and `adminEmailOk`
cannot influence the outcome; every path of a new document counts as
modified, so the pre-save middleware runs with `statusModified = true`; the
schema re-checks the preferred-date validator at save time (a failure there
would escape to the error middleware, but the route check has already
enforced it). The remaining schema field patterns belong to the persistence
layer and mirror the route checks; they are not re-modelled here. -/
def createAppointment (isEmail : String → Bool) (today now fresh : Nat)
    (userEmailOk adminEmailOk : Bool) (store : List Appointment)
    (r : AppointmentRequest) : HandlerResult × List Appointment :=
  if appointmentValidationPasses isEmail today r = true then
    let a := appointmentPreSave true now (mkAppointment fresh r)
    if today ≤ a.preferredDate then (.resp 201, store ++ [a])
    else (.raise none, store)
  else (.resp 400, store)

/-- The allow-listed update body of `PUT /api/appointment/:id`. -/
structure AppointmentUpdateBody where
  status : Option AppointmentStatus
  priority : Option Priority
  confirmedDate : Option Nat
  confirmedTime : Option String
  duration : Option Nat
  notes : Option String
  assignedTo : Option String
  tags : Option (List String)
  cancelledReason : Option String
deriving DecidableEq, Repr

/-- Field-wise application of the allow-listed update body: a field present in
the body (`!== undefined`) overwrites the stored one, an absent field leaves
it untouched (`src/routes/appointment.ts`, `allowedUpdates.forEach`). -/
def applyAppointmentUpdates (b : AppointmentUpdateBody) (a : Appointment) :
    Appointment :=
  { a with
    status := b.status.getD a.status
    priority := b.priority.getD a.priority
    confirmedDate := b.confirmedDate.or a.confirmedDate
    confirmedTime := b.confirmedTime.or a.confirmedTime
    duration := b.duration.getD a.duration
    notes := b.notes.or a.notes
    assignedTo := b.assignedTo.or a.assignedTo
    tags := b.tags.getD a.tags
    cancelledReason := b.cancelledReason.or a.cancelledReason }

/-- `PUT /api/appointment/:id` (`src/routes/appointment.ts`): look the
document up, apply the allow-listed fields, save (running the pre-save
middleware; the status path is modified exactly when the applied status
differs from the stored one), and write the saved document back. -/
def updateAppointment (b : AppointmentUpdateBody) (now : Nat)
    (store : List Appointment) (id : Nat) : HandlerResult × List Appointment :=
  match store.find? (fun x => decide (x.id = id)) with
  | none => (.resp 404, store)
  | some a =>
      let a2 := applyAppointmentUpdates b a
      let a3 := appointmentPreSave (decide (¬ a2.status = a.status)) now a2
      (.resp 200, store.map (fun x => if x.id = id then a3 else x))

/-- The body of `POST /api/appointment/:id/confirm`. -/
structure ConfirmBody where
  confirmedDate : Option Nat
  confirmedTime : Option String
  notes : Option String
deriving DecidableEq, Repr

/-- The document mutation performed by the confirm handler: force the status
to `confirmed`, overwrite the confirmation fields that are present in the
body, then save (running the pre-save middleware). -/
def confirmApply (now : Nat) (body : ConfirmBody) (a : Appointment) :
    Appointment :=
  let a1 := { a with status := AppointmentStatus.confirmed
                     confirmedDate := body.confirmedDate.or a.confirmedDate
                     confirmedTime := body.confirmedTime.or a.confirmedTime
                     notes := body.notes.or a.notes }
  appointmentPreSave (decide (¬ a.status = .confirmed)) now a1

/-- `POST /api/appointment/:id/confirm` (`src/routes/appointment.ts`): the
document is saved first, then the confirmation email is sent without any
`try`/`catch`, so a failed send (`emailOk = false`) raises after the store was
already updated. -/
def confirmAppointment (now : Nat) (emailOk : Bool) (body : ConfirmBody)
    (store : List Appointment) (id : Nat) : HandlerResult × List Appointment :=
  match store.find? (fun x => decide (x.id = id)) with
  | none => (.resp 404, store)
  | some a =>
      let a' := confirmApply now body a
      let store' := store.map (fun x => if x.id = id then a' else x)
      if emailOk = true then (.resp 200, store')
      else (.raise none, store')

/-- A save that runs with the status path unmodified leaves the document
untouched: every branch of the pre-save middleware is guarded by
`isModified` on the status. -/
lemma appointmentPreSave_not_modified (now : Nat) (a : Appointment) :
    appointmentPreSave false now a = a := by
  simp [appointmentPreSave]

/-- Writing the saved document back into the collection: when the lookup by
id found `a`, the written-back collection's lookup finds the saved value `c`
(the save keeps the id). -/
lemma find?_write_back (c : Appointment) (id : Nat) (l : List Appointment)
    (a : Appointment) (hc : c.id = id)
    (h : l.find? (fun x => decide (x.id = id)) = some a) :
    (l.map (fun x => if x.id = id then c else x)).find?
      (fun x => decide (x.id = id)) = some c := by
  induction l with
  | nil => simp at h
  | cons x xs ih =>
      by_cases hx : x.id = id
      · simp [hx, hc]
      · rw [List.find?_cons_of_neg _ (by simp [hx])] at h
        simpa [hx] using ih h

/-- A booking body that passes validation has a preferred date at or after
the creation date: the custom date check is one of the conjuncts. -/
lemma validationPasses_date_le (isEmail : String → Bool) (today : Nat)
    (r : AppointmentRequest)
    (h : appointmentValidationPasses isEmail today r = true) :
    today ≤ r.preferredDate := by
  have h8 : decide (¬ r.preferredDate < today) = true := by
    simp only [appointmentValidationPasses, Bool.and_eq_true] at h
    exact h.1.1.2
  exact Nat.not_lt.mp (of_decide_eq_true h8)

/-- C1: a booking request that passes validation is persisted with status
`pending`, priority `medium`, and a preferred date not before the creation
date, and the handler answers 201; a request whose preferred date lies
before the creation date is answered 400 with the store unchanged. -/
theorem appointment_create_pending_not_past (isEmail : String → Bool)
    (today now fresh : Nat) (userEmailOk adminEmailOk : Bool)
    (store : List Appointment) (r : AppointmentRequest) :
    (appointmentValidationPasses isEmail today r = true →
      ∃ a, createAppointment isEmail today now fresh userEmailOk adminEmailOk
             store r = (.resp 201, store ++ [a]) ∧
        a.status = .pending ∧ a.priority = .medium ∧
        today ≤ a.preferredDate) ∧
    (r.preferredDate < today →
      createAppointment isEmail today now fresh userEmailOk adminEmailOk
        store r = (.resp 400, store)) := by
  constructor
  · intro h
    have hd : today ≤ r.preferredDate := validationPasses_date_le isEmail today r h
    have hpre : appointmentPreSave true now (mkAppointment fresh r)
        = mkAppointment fresh r := rfl
    refine ⟨mkAppointment fresh r, ?_, rfl, rfl, hd⟩
    simp only [createAppointment, hpre, if_pos h]
    exact if_pos hd
  · intro hlt
    have hv : appointmentValidationPasses isEmail today r = false := by
      simp [appointmentValidationPasses, hlt]
    simp [createAppointment, hv]

/-- A sample booking request that passes validation when today = 100. -/
def reqA : AppointmentRequest :=
  { name := "John Doe"
    email := "john@example.com"
    phone := "1234567890"
    treatmentType := "Acne Treatment"
    preferredDate := 100
    preferredTime := "10:00 AM"
    message := none }

/-- The same booking request with a preferred date in the past. -/
def reqB : AppointmentRequest := { reqA with preferredDate := 50 }

/-- Concrete run of the C1 theorem: the valid request is persisted as
pending/medium, the past-dated one is rejected with the store unchanged. -/
theorem appointment_create_pending_not_past_witness :
    (∃ a, createAppointment (fun _ => true) 100 100 0 true true [] reqA
        = (.resp 201, [] ++ [a]) ∧
      a.status = .pending ∧ a.priority = .medium ∧ 100 ≤ a.preferredDate) ∧
    createAppointment (fun _ => true) 100 100 0 true true [] reqB
      = (.resp 400, []) :=
  ⟨(appointment_create_pending_not_past (fun _ => true) 100 100 0 true true
      [] reqA).1 (by decide),
   (appointment_create_pending_not_past (fun _ => true) 100 100 0 true true
      [] reqB).2 (by decide)⟩

/-- C2: setting the status of a document to `confirmed` and saving copies
`confirmedDate`/`confirmedTime` from the preferred values when both are
unset, and leaves both untouched when both are already set. -/
theorem appointment_confirm_fill (now : Nat) (a : Appointment) :
    (a.status ≠ .confirmed → a.confirmedDate = none → a.confirmedTime = none →
      (saveWithStatus .confirmed now a).confirmedDate = some a.preferredDate ∧
      (saveWithStatus .confirmed now a).confirmedTime = some a.preferredTime) ∧
    (∀ d t, a.confirmedDate = some d → a.confirmedTime = some t →
      (saveWithStatus .confirmed now a).confirmedDate = some d ∧
      (saveWithStatus .confirmed now a).confirmedTime = some t) := by
  constructor
  · intro h1 h2 h3
    simp [saveWithStatus, appointmentPreSave, h1, h2, h3]
  · intro d t hd ht
    simp [saveWithStatus, appointmentPreSave, hd, ht]

/-- A pending document with no confirmation values. -/
def apptA : Appointment :=
  { id := 1
    name := "John Doe"
    email := "john@example.com"
    phone := "1234567890"
    treatmentType := "Acne Treatment"
    preferredDate := 100
    preferredTime := "10:00 AM"
    message := none
    status := .pending
    priority := .medium
    confirmedDate := none
    confirmedTime := none
    actualDate := none
    actualTime := none
    duration := 60
    notes := none
    assignedTo := none
    tags := []
    reminderSent := false
    cancelledAt := none
    cancelledReason := none }

/-- The same document with confirmation values already set. -/
def apptB : Appointment :=
  { apptA with confirmedDate := some 120, confirmedTime := some ("9:00 AM") }

/-- Concrete run of the C2 theorem on a document without and with
confirmation values. -/
theorem appointment_confirm_fill_witness :
    ((saveWithStatus .confirmed 5 apptA).confirmedDate
        = some apptA.preferredDate ∧
      (saveWithStatus .confirmed 5 apptA).confirmedTime
        = some apptA.preferredTime) ∧
    ((saveWithStatus .confirmed 5 apptB).confirmedDate = some 120 ∧
      (saveWithStatus .confirmed 5 apptB).confirmedTime = some ("9:00 AM")) :=
  ⟨(appointment_confirm_fill 5 apptA).1 (by decide) rfl rfl,
   (appointment_confirm_fill 5 apptB).2 120 ("9:00 AM") rfl rfl⟩

/-- C3: cancelling a document with no cancellation stamp records the current
time, and cancelling again after the save leaves the original stamp in
place: the stamp is written exactly once. -/
theorem appointment_cancel_stamps_once (t1 t2 : Nat) (a : Appointment)
    (h0 : a.cancelledAt = none) (h1 : a.status ≠ .cancelled) :
    (saveWithStatus .cancelled t1 a).cancelledAt = some t1 ∧
    (saveWithStatus .cancelled t2
        (saveWithStatus .cancelled t1 a)).cancelledAt = some t1 := by
  have hb : saveWithStatus .cancelled t1 a
      = { a with status := .cancelled, cancelledAt := some t1 } := by
    simp [saveWithStatus, appointmentPreSave, h0, h1]
  rw [hb]
  constructor
  · rfl
  · rfl

/-- Concrete run of the C3 theorem: a second cancellation at a later time
does not move the stamp. -/
theorem appointment_cancel_stamps_once_witness :
    (saveWithStatus .cancelled 7 apptA).cancelledAt = some 7 ∧
    (saveWithStatus .cancelled 9
        (saveWithStatus .cancelled 7 apptA)).cancelledAt = some 7 :=
  appointment_cancel_stamps_once 7 9 apptA rfl (by decide)

/-- An update body carrying only `{status: "completed"}`. -/
def completedOnlyBody : AppointmentUpdateBody :=
  { status := some .completed
    priority := none
    confirmedDate := none
    confirmedTime := none
    duration := none
    notes := none
    assignedTo := none
    tags := none
    cancelledReason := none }

/-- C4: updating a stored appointment with `{status: "completed"}` fills
`actualDate`/`actualTime` from the confirmed values when those are set, and
from the preferred values when the confirmed ones are absent. -/
theorem appointment_update_completed_fill (now : Nat)
    (store : List Appointment) (id : Nat) (a : Appointment)
    (hfind : store.find? (fun x => decide (x.id = id)) = some a)
    (hact : a.actualDate = none) (hst : a.status ≠ .completed) :
    (∀ d t, a.confirmedDate = some d → a.confirmedTime = some t →
      ∃ a3, (updateAppointment completedOnlyBody now store id).2.find?
          (fun x => decide (x.id = id)) = some a3 ∧
        a3.actualDate = some d ∧ a3.actualTime = some t ∧
        a3.status = .completed) ∧
    (a.confirmedDate = none → a.confirmedTime = none →
      ∃ a3, (updateAppointment completedOnlyBody now store id).2.find?
          (fun x => decide (x.id = id)) = some a3 ∧
        a3.actualDate = some a.preferredDate ∧
        a3.actualTime = some a.preferredTime ∧
        a3.status = .completed) := by
  have hid : a.id = id := by
    have hpa := List.find?_some hfind
    simpa using hpa
  have happly : applyAppointmentUpdates completedOnlyBody a
      = { a with status := .completed } := by
    simp [applyAppointmentUpdates, completedOnlyBody]
  have hmod : decide
      (¬ (applyAppointmentUpdates completedOnlyBody a).status = a.status)
      = true := by
    rw [happly]
    exact decide_eq_true (fun hcontra => hst hcontra.symm)
  have hsave : appointmentPreSave
        (decide (¬ (applyAppointmentUpdates completedOnlyBody a).status
          = a.status)) now (applyAppointmentUpdates completedOnlyBody a)
      = { a with status := .completed,
                 actualDate := some (a.confirmedDate.getD a.preferredDate),
                 actualTime := some (a.confirmedTime.getD a.preferredTime) } := by
    rw [hmod, happly]
    simp [appointmentPreSave, hact]
  have hupd : (updateAppointment completedOnlyBody now store id).2
      = store.map (fun x =>
          if x.id = id then
            { a with status := .completed,
                     actualDate := some (a.confirmedDate.getD a.preferredDate),
                     actualTime := some (a.confirmedTime.getD a.preferredTime) }
          else x) := by
    simp only [updateAppointment, hfind, hsave]
  constructor
  · intro d t hd ht
    refine ⟨_, (by rw [hupd]; exact find?_write_back _ id store a hid hfind),
      ?_, ?_, ?_⟩
    · simp [hd]
    · simp [ht]
    · rfl
  · intro hd ht
    refine ⟨_, (by rw [hupd]; exact find?_write_back _ id store a hid hfind),
      ?_, ?_, ?_⟩
    · simp [hd]
    · simp [ht]
    · rfl

/-- A confirmed document with confirmation values and no actual values. -/
def apptC : Appointment :=
  { apptA with status := .confirmed
               confirmedDate := some 120
               confirmedTime := some ("9:00 AM") }

/-- Concrete run of the C4 theorem: completing a confirmed appointment copies
the confirmed values into the actual ones, and completing a pending one
falls back to the preferred values. -/
theorem appointment_update_completed_fill_witness :
    (∃ a3, (updateAppointment completedOnlyBody 7 [apptC] 1).2.find?
        (fun x => decide (x.id = 1)) = some a3 ∧
      a3.actualDate = some 120 ∧ a3.actualTime = some ("9:00 AM") ∧
      a3.status = .completed) ∧
    (∃ a3, (updateAppointment completedOnlyBody 7 [apptA] 1).2.find?
        (fun x => decide (x.id = 1)) = some a3 ∧
      a3.actualDate = some apptA.preferredDate ∧
      a3.actualTime = some apptA.preferredTime ∧
      a3.status = .completed) :=
  ⟨(appointment_update_completed_fill 7 [apptC] 1 apptC (by decide) rfl
      (by decide)).1 120 ("9:00 AM") rfl rfl,
   (appointment_update_completed_fill 7 [apptA] 1 apptA (by decide) rfl
      (by decide)).2 rfl rfl⟩

/-- Contact status enum (`new`, `read`, `replied`, `archived`). -/
inductive ContactStatus where
  | new
  | read
  | replied
  | archived
deriving DecidableEq, Repr

/-- Modelled from the spec: a contact document. The Contact schema file is
not part of the repository snapshot; §3 of the spec lists its attributes
(name, email, subject, message, status, priority, tags, assigned staff) and
§4.2 gives it no lifecycle side effects, so saving is plain persistence. -/
structure Contact where
  id : Nat
  name : String
  email : String
  subject : String
  message : String
  status : ContactStatus
  priority : Priority
  tags : List String
  assignedTo : Option String
  notes : Option String
  createdAt : Nat
deriving DecidableEq, Repr

/-- The body of `POST /api/contact`. -/
structure ContactRequest where
  name : String
  email : String
  subject : String
  message : String
deriving DecidableEq, Repr

/-- `contactValidation` of `src/routes/contact.ts`: name 2-100, subject
5-200 and message 10-2000 characters after trimming, plus the external
`isEmail` check. -/
def contactValidationPasses (isEmail : String → Bool) (r : ContactRequest) :
    Bool :=
  decide (2 ≤ (jsTrim r.name).length) &&
  decide ((jsTrim r.name).length ≤ 100) &&
  isEmail r.email &&
  decide (5 ≤ (jsTrim r.subject).length) &&
  decide ((jsTrim r.subject).length ≤ 200) &&
  decide (10 ≤ (jsTrim r.message).length) &&
  decide ((jsTrim r.message).length ≤ 2000)

/-- The document built by the contact create handler (`new Contact({...})`):
status `new` and priority `medium` are set explicitly. -/
def mkContact (fresh now : Nat) (r : ContactRequest) : Contact :=
  { id := fresh
    name := jsTrim r.name
    email := normalizeEmail r.email
    subject := jsTrim r.subject
    message := jsTrim r.message
    status := .new
    priority := .medium
    tags := []
    assignedTo := none
    notes := none
    createdAt := now }

/-- `POST /api/contact` (`src/routes/contact.ts`): validate, persist, then
await the two notification emails with no `try`/`catch` around them: a
failing send rejects inside the `asyncHandler` wrapper and the error escapes
to the error middleware, after the record was already saved. -/
def createContact (isEmail : String → Bool) (fresh now : Nat)
    (userEmailOk adminEmailOk : Bool) (store : List Contact)
    (r : ContactRequest) : HandlerResult × List Contact :=
  if contactValidationPasses isEmail r = true then
    let c := mkContact fresh now r
    let store' := store ++ [c]
    if userEmailOk = true then
      if adminEmailOk = true then (.resp 201, store')
      else (.raise none, store')
    else (.raise none, store')
  else (.resp 400, store)

/-- C5: when either notification send fails during a validated contact
creation, the error propagates (no 201) although the record was persisted;
a validated appointment creation answers 201 and persists the record for
every combination of email outcomes, because both sends are caught. -/
theorem contact_email_fatal_appointment_email_caught
    (isEmail : String → Bool) (fresh cnow : Nat) (store : List Contact)
    (r : ContactRequest) (userEmailOk adminEmailOk : Bool)
    (hv : contactValidationPasses isEmail r = true)
    (hfail : userEmailOk = false ∨ adminEmailOk = false) :
    ((createContact isEmail fresh cnow userEmailOk adminEmailOk store r).1
        = .raise none ∧
      (createContact isEmail fresh cnow userEmailOk adminEmailOk store r).2
        = store ++ [mkContact fresh cnow r]) ∧
    (∀ (isEmail2 : String → Bool) (today now fresh2 : Nat) (e1 e2 : Bool)
        (store2 : List Appointment) (r2 : AppointmentRequest),
      appointmentValidationPasses isEmail2 today r2 = true →
      (createAppointment isEmail2 today now fresh2 e1 e2 store2 r2).1
          = .resp 201 ∧
      (createAppointment isEmail2 today now fresh2 e1 e2 store2 r2).2
          = store2 ++ [appointmentPreSave true now (mkAppointment fresh2 r2)]) := by
  constructor
  · rcases hfail with h | h
    · subst h
      simp [createContact, hv]
    · subst h
      cases userEmailOk <;> simp [createContact, hv]
  · intro isEmail2 today now fresh2 e1 e2 store2 r2 h2
    have hd : today ≤ r2.preferredDate :=
      validationPasses_date_le isEmail2 today r2 h2
    have heq : createAppointment isEmail2 today now fresh2 e1 e2 store2 r2
        = (.resp 201,
           store2 ++ [appointmentPreSave true now (mkAppointment fresh2 r2)]) := by
      simp only [createAppointment, if_pos h2]
      exact if_pos hd
    exact ⟨by rw [heq], by rw [heq]⟩

/-- A sample contact submission that passes validation. -/
def reqC : ContactRequest :=
  { name := "John Doe"
    email := "john@example.com"
    subject := "Appointment question"
    message := "I would like to know more about acne treatment." }

/-- Concrete run of the C5 theorem: with the first contact email failing the
contact request raises after persisting, while an appointment creation with
both emails failing still answers 201 and persists. -/
theorem contact_email_fatal_appointment_email_caught_witness :
    ((createContact (fun _ => true) 0 3 false true [] reqC).1
        = .raise none ∧
      (createContact (fun _ => true) 0 3 false true [] reqC).2
        = [] ++ [mkContact 0 3 reqC]) ∧
    ((createAppointment (fun _ => true) 100 100 0 false false [] reqA).1
        = .resp 201 ∧
      (createAppointment (fun _ => true) 100 100 0 false false [] reqA).2
        = [] ++ [appointmentPreSave true 100 (mkAppointment 0 reqA)]) :=
  have h := contact_email_fatal_appointment_email_caught (fun _ => true) 0 3
    [] reqC false true (by decide) (Or.inl rfl)
  ⟨h.1, h.2 (fun _ => true) 100 100 0 false false [] reqA (by decide)⟩

/-- A subscriber document (`src/models/Subscriber.ts`): a unique lower-cased
email plus an optional source tag. -/
structure Subscriber where
  id : Nat
  email : String
  source : Option String
deriving DecidableEq, Repr

/-- The outcome of a subscribe request: handler result, resulting store, and
whether a confirmation-email send was started. -/
structure SubscribeOutcome where
  result : HandlerResult
  store : List Subscriber
  confirmationAttempted : Bool
deriving DecidableEq, Repr

/-- `POST /api/subscriber` (`src/routes/subscriber.ts`): after validation
(external `isEmail` plus the 50-character source bound) the handler looks
the normalised email up first; an existing subscriber answers 200 without
touching the store or re-sending the confirmation; otherwise the document is
persisted, a fire-and-forget confirmation send is started (its failure only
logged, never surfaced), and the handler answers 201. -/
def subscribe (isEmail : String → Bool) (fresh : Nat)
    (store : List Subscriber) (email : String) (source : Option String) :
    SubscribeOutcome :=
  if (isEmail email &&
      (match source with
       | none => true
       | some s => decide ((jsTrim s).length ≤ 50))) = true then
    let e := normalizeEmail email
    match store.find? (fun s => decide (s.email = e)) with
    | some _ =>
        { result := .resp 200, store := store, confirmationAttempted := false }
    | none =>
        { result := .resp 201
          store := store ++ [{ id := fresh, email := e,
                               source := source.map jsTrim }]
          confirmationAttempted := true }
  else { result := .resp 400, store := store, confirmationAttempted := false }

/-- C6: subscribing is idempotent in the email: starting from a store with
no record for the (normalised) address, the first request creates exactly
one record and the second request answers success (200) while leaving the
store unchanged and without starting another confirmation email. -/
theorem subscriber_create_idempotent (isEmail : String → Bool) (f1 f2 : Nat)
    (store : List Subscriber) (email : String)
    (hv : isEmail email = true)
    (habs : store.find? (fun s => decide (s.email = normalizeEmail email))
      = none) :
    (subscribe isEmail f1 store email none).result = .resp 201 ∧
    (subscribe isEmail f1 store email none).store.countP
        (fun s => decide (s.email = normalizeEmail email)) = 1 ∧
    (subscribe isEmail f2 (subscribe isEmail f1 store email none).store
        email none).result = .resp 200 ∧
    (subscribe isEmail f2 (subscribe isEmail f1 store email none).store
        email none).store = (subscribe isEmail f1 store email none).store ∧
    (subscribe isEmail f2 (subscribe isEmail f1 store email none).store
        email none).confirmationAttempted = false := by
  have ho1 : subscribe isEmail f1 store email none
      = { result := .resp 201
          store := store ++ [{ id := f1, email := normalizeEmail email,
                               source := none }]
          confirmationAttempted := true } := by
    simp [subscribe, hv, habs]
  have hcount0 : store.countP
      (fun s => decide (s.email = normalizeEmail email)) = 0 :=
    List.countP_eq_zero.mpr (List.find?_eq_none.mp habs)
  have hfind2 : (store ++ [({ id := f1, email := normalizeEmail email,
                              source := none } : Subscriber)]).find?
      (fun s => decide (s.email = normalizeEmail email))
      = some { id := f1, email := normalizeEmail email, source := none } := by
    rw [List.find?_append, habs]
    simp
  have ho2 : subscribe isEmail f2
        (store ++ [({ id := f1, email := normalizeEmail email,
                      source := none } : Subscriber)]) email none
      = { result := .resp 200
          store := store ++ [{ id := f1, email := normalizeEmail email,
                               source := none }]
          confirmationAttempted := false } := by
    simp [subscribe, hv, hfind2]
  rw [ho1]
  refine ⟨rfl, ?_, ?_, ?_, ?_⟩
  · simp [List.countP_append, hcount0, List.countP_cons]
  · rw [ho2]
  · rw [ho2]
  · rw [ho2]

/-- Concrete run of the C6 theorem on an empty store. -/
theorem subscriber_create_idempotent_witness :
    (subscribe (fun _ => true) 1 [] ("User@Example.com") none).result
        = .resp 201 ∧
    (subscribe (fun _ => true) 1 [] ("User@Example.com") none).store.countP
        (fun s => decide (s.email = normalizeEmail ("User@Example.com")))
        = 1 ∧
    (subscribe (fun _ => true) 2
        (subscribe (fun _ => true) 1 [] ("User@Example.com") none).store
        ("User@Example.com") none).result = .resp 200 ∧
    (subscribe (fun _ => true) 2
        (subscribe (fun _ => true) 1 [] ("User@Example.com") none).store
        ("User@Example.com") none).store
      = (subscribe (fun _ => true) 1 [] ("User@Example.com") none).store ∧
    (subscribe (fun _ => true) 2
        (subscribe (fun _ => true) 1 [] ("User@Example.com") none).store
        ("User@Example.com") none).confirmationAttempted = false :=
  subscriber_create_idempotent (fun _ => true) 1 2 [] ("User@Example.com")
    rfl rfl

/-- Blog status enum (`draft`, `published`). -/
inductive BlogStatus where
  | draft
  | published
deriving DecidableEq, Repr

/-- One blog sub-section (`src/models/Blog.ts`). -/
structure BlogSection where
  title : Option String
  content : String
  image : Option String
deriving DecidableEq, Repr

/-- A blog document (`src/models/Blog.ts`). -/
structure Blog where
  id : Nat
  title : String
  slug : String
  excerpt : String
  content : String
  image : Option String
  author : String
  category : Option String
  readTime : Option String
  tags : List String
  sections : List BlogSection
  status : BlogStatus
  publishedAt : Option Nat
  metaDescription : Option String
  seoKeywords : List String
  metaTags : List String
deriving DecidableEq, Repr

/-- The body of `POST /api/blog` and `PUT /api/blog/:id` (both run the same
`createValidation`). `publishedAt` is not validated but the schema knows the
path, so a body value for it is cast and applied by the persistence calls. -/
structure BlogRequest where
  title : String
  slug : String
  excerpt : String
  content : String
  image : Option String
  author : Option String
  category : Option String
  readTime : Option String
  tags : Option (List String)
  sections : Option (List BlogSection)
  status : Option BlogStatus
  publishedAt : Option Nat
  metaDescription : Option String
  seoKeywords : Option (List String)
  metaTags : Option (List String)
deriving DecidableEq, Repr

/-- An optional field check: absent passes, present must be at most `n`
characters after trimming. -/
def optTrimMax (o : Option String) (n : Nat) : Bool :=
  match o with
  | none => true
  | some s => decide ((jsTrim s).length ≤ n)

/-- An optional URL check delegated to the external `isURL` validator. -/
def optURLOk (isURL : String → Bool) (o : Option String) : Bool :=
  match o with
  | none => true
  | some s => isURL s

/-- One character of the slug pattern class `[a-z0-9-]`. -/
def slugCharOk (c : Char) : Bool :=
  (decide ('a' ≤ c) && decide (c ≤ 'z')) || c.isDigit || c = '-'

/-- The slug regex of `src/routes/blog.ts`: a non-empty string of lower-case
letters, digits and dashes. -/
def slugMatches (s : String) : Bool :=
  !s.toList.isEmpty && s.toList.all slugCharOk

/-- `createValidation` of `src/routes/blog.ts`. -/
def blogValidationPasses (isURL : String → Bool) (r : BlogRequest) : Bool :=
  decide (3 ≤ (jsTrim r.title).length) &&
  decide ((jsTrim r.title).length ≤ 200) &&
  decide (3 ≤ (jsTrim r.slug).length) &&
  decide ((jsTrim r.slug).length ≤ 200) &&
  slugMatches (jsTrim r.slug) &&
  decide (10 ≤ (jsTrim r.excerpt).length) &&
  decide ((jsTrim r.excerpt).length ≤ 400) &&
  decide (10 ≤ r.content.length) &&
  optURLOk isURL r.image &&
  optTrimMax r.author 100 &&
  optTrimMax r.category 100 &&
  optTrimMax r.readTime 50 &&
  (r.sections.getD []).all (fun s =>
    optTrimMax s.title 200 && decide (3 ≤ s.content.length) &&
    optURLOk isURL s.image) &&
  optTrimMax r.metaDescription 160

/-- The stored form of a body sub-section (schema trims title and image). -/
def mkBlogSection (s : BlogSection) : BlogSection :=
  { title := s.title.map jsTrim, content := s.content,
    image := s.image.map jsTrim }

/-- The document built by `Blog.create(req.body)` with the schema defaults
and setters of `src/models/Blog.ts`: trimming, the lower-casing slug setter,
default author `Clinic Team`, and default status `published`. -/
def mkBlog (fresh : Nat) (r : BlogRequest) : Blog :=
  { id := fresh
    title := jsTrim r.title
    slug := lowerString (jsTrim r.slug)
    excerpt := jsTrim r.excerpt
    content := r.content
    image := r.image.map jsTrim
    author := (r.author.map jsTrim).getD ("Clinic Team")
    category := r.category.map jsTrim
    readTime := r.readTime.map jsTrim
    tags := (r.tags.getD []).map jsTrim
    sections := (r.sections.getD []).map mkBlogSection
    status := r.status.getD .published
    publishedAt := r.publishedAt
    metaDescription := r.metaDescription.map jsTrim
    seoKeywords := (r.seoKeywords.getD []).map jsTrim
    metaTags := (r.metaTags.getD []).map jsTrim }

/-- The pre-save middleware of `BlogSchema` (`src/models/Blog.ts`): when the
status path was modified, a save of a published document without a
`publishedAt` stamps it with the current time, and a save of a draft clears
it. -/
def blogPreSave (statusModified : Bool) (now : Nat) (b : Blog) : Blog :=
  if statusModified = true then
    let withStamp :=
      if b.status = .published ∧ b.publishedAt = none then
        { b with publishedAt := some now }
      else b
    if b.status = .draft then { withStamp with publishedAt := none }
    else withStamp
  else b

/-- `POST /api/blog` (`src/routes/blog.ts`): validate, look the slug up
(query casting applies the schema lower-case setter to the filter value),
answer the conflict thrown by `createError(..., 400)` when it exists, and
otherwise persist through `Blog.create`, which runs the pre-save middleware
with every path of the new document counting as modified. -/
def createBlog (isURL : String → Bool) (fresh now : Nat) (store : List Blog)
    (r : BlogRequest) : HandlerResult × List Blog :=
  if blogValidationPasses isURL r = true then
    match store.find? (fun b => decide (b.slug = lowerString (jsTrim r.slug))) with
    | some _ => (.raise (some 400), store)
    | none => (.resp 201, store ++ [blogPreSave true now (mkBlog fresh r)])
  else (.resp 400, store)

/-- The `$set` application performed by `Blog.findByIdAndUpdate(id, req.body)`:
fields present in the body are cast through the schema setters and written,
absent ones stay; no document save happens, so the pre-save middleware does
not run. -/
def applyBlogUpdate (r : BlogRequest) (b : Blog) : Blog :=
  { b with
    title := jsTrim r.title
    slug := lowerString (jsTrim r.slug)
    excerpt := jsTrim r.excerpt
    content := r.content
    image := (r.image.map jsTrim).or b.image
    author := (r.author.map jsTrim).getD b.author
    category := (r.category.map jsTrim).or b.category
    readTime := (r.readTime.map jsTrim).or b.readTime
    tags := (r.tags.map (List.map jsTrim)).getD b.tags
    sections := (r.sections.map (List.map mkBlogSection)).getD b.sections
    status := r.status.getD b.status
    publishedAt := r.publishedAt.or b.publishedAt
    metaDescription := (r.metaDescription.map jsTrim).or b.metaDescription
    seoKeywords := (r.seoKeywords.map (List.map jsTrim)).getD b.seoKeywords
    metaTags := (r.metaTags.map (List.map jsTrim)).getD b.metaTags }

/-- `PUT /api/blog/:id` (`src/routes/blog.ts`): validate, then
`findByIdAndUpdate` with the body; this is a query update, not a document
save, so `BlogSchema`'s pre-save middleware is bypassed. -/
def updateBlogById (isURL : String → Bool) (id : Nat) (r : BlogRequest)
    (store : List Blog) : HandlerResult × List Blog :=
  if blogValidationPasses isURL r = true then
    match store.find? (fun b => decide (b.id = id)) with
    | none => (.resp 404, store)
    | some _ =>
        (.resp 200, store.map (fun b => if b.id = id then applyBlogUpdate r b
                                        else b))
  else (.resp 400, store)

/-- The pre-save middleware never changes the slug. -/
lemma blogPreSave_slug (m : Bool) (now : Nat) (b : Blog) :
    (blogPreSave m now b).slug = b.slug := by
  by_cases hm : m = true <;>
    by_cases h1 : b.status = .published ∧ b.publishedAt = none <;>
      by_cases h2 : b.status = .draft <;>
        simp [blogPreSave, hm, h1, h2]

/-- C7: creating a blog with a fresh slug succeeds; a second validated
creation carrying the same slug is answered with the 400 conflict raised by
`createError`, no record is added, and the first blog's stored state is
untouched. -/
theorem blog_slug_conflict (isURL : String → Bool) (f1 f2 n1 n2 : Nat)
    (store : List Blog) (r1 r2 : BlogRequest)
    (h1 : blogValidationPasses isURL r1 = true)
    (h2 : blogValidationPasses isURL r2 = true)
    (hs : r2.slug = r1.slug)
    (habs : store.find?
        (fun b => decide (b.slug = lowerString (jsTrim r1.slug))) = none) :
    (createBlog isURL f1 n1 store r1).1 = .resp 201 ∧
    (createBlog isURL f1 n1 store r1).2
        = store ++ [blogPreSave true n1 (mkBlog f1 r1)] ∧
    (createBlog isURL f2 n2 (createBlog isURL f1 n1 store r1).2 r2).1
        = .raise (some 400) ∧
    (createBlog isURL f2 n2 (createBlog isURL f1 n1 store r1).2 r2).2
        = (createBlog isURL f1 n1 store r1).2 := by
  have ho1 : createBlog isURL f1 n1 store r1
      = (.resp 201, store ++ [blogPreSave true n1 (mkBlog f1 r1)]) := by
    simp [createBlog, h1, habs]
  have hslug : (blogPreSave true n1 (mkBlog f1 r1)).slug
      = lowerString (jsTrim r1.slug) := by
    rw [blogPreSave_slug]
    rfl
  have hfind2 : (store ++ [blogPreSave true n1 (mkBlog f1 r1)]).find?
      (fun b => decide (b.slug = lowerString (jsTrim r2.slug)))
      = some (blogPreSave true n1 (mkBlog f1 r1)) := by
    rw [hs, List.find?_append, habs]
    simp [hslug]
  have ho2 : createBlog isURL f2 n2
        (store ++ [blogPreSave true n1 (mkBlog f1 r1)]) r2
      = (.raise (some 400),
         store ++ [blogPreSave true n1 (mkBlog f1 r1)]) := by
    simp [createBlog, h2, hfind2]
  rw [ho1]
  exact ⟨rfl, rfl, by rw [ho2], by rw [ho2]⟩

/-- A sample blog body that passes validation. -/
def blogReqA : BlogRequest :=
  { title := "My first post"
    slug := "my-first-post"
    excerpt := "This is the excerpt of the post."
    content := "Some reasonably long content."
    image := none
    author := none
    category := none
    readTime := none
    tags := none
    sections := none
    status := none
    publishedAt := none
    metaDescription := none
    seoKeywords := none
    metaTags := none }

/-- A second blog body with the same slug and a different title. -/
def blogReqB : BlogRequest := { blogReqA with title := "Another post" }

/-- Concrete run of the C7 theorem on an empty store. -/
theorem blog_slug_conflict_witness :
    (createBlog (fun _ => true) 1 10 [] blogReqA).1 = .resp 201 ∧
    (createBlog (fun _ => true) 1 10 [] blogReqA).2
        = [] ++ [blogPreSave true 10 (mkBlog 1 blogReqA)] ∧
    (createBlog (fun _ => true) 2 20
        (createBlog (fun _ => true) 1 10 [] blogReqA).2 blogReqB).1
        = .raise (some 400) ∧
    (createBlog (fun _ => true) 2 20
        (createBlog (fun _ => true) 1 10 [] blogReqA).2 blogReqB).2
        = (createBlog (fun _ => true) 1 10 [] blogReqA).2 :=
  blog_slug_conflict (fun _ => true) 1 2 10 20 [] blogReqA blogReqB
    (by decide) (by decide) rfl rfl

/-- A stored draft blog with no `publishedAt`. -/
def blogDraft : Blog :=
  { id := 1
    title := "My first post"
    slug := "my-first-post"
    excerpt := "This is the excerpt of the post."
    content := "Some reasonably long content."
    image := none
    author := "Clinic Team"
    category := none
    readTime := none
    tags := []
    sections := []
    status := .draft
    publishedAt := none
    metaDescription := none
    seoKeywords := []
    metaTags := []}

/-- The same document in published state without a stamp. -/
def blogPub0 : Blog := { blogDraft with status := .published }

/-- A valid update body that sets the status to published. -/
def blogReqPub : BlogRequest := { blogReqA with status := some .published }

/-- C8 counterexample: updating a stored draft through `PUT /api/blog/:id`
with a body whose status is `published` answers 200 and stores the document
with status `published` but with `publishedAt` still unset: the update-by-id
write path does not apply the persistence-layer side effect. -/
theorem blog_update_by_id_skips_publishedAt :
    (updateBlogById (fun _ => true) 1 blogReqPub [blogDraft]).1
        = .resp 200 ∧
    ((updateBlogById (fun _ => true) 1 blogReqPub [blogDraft]).2).map
        Blog.status = [.published] ∧
    ((updateBlogById (fun _ => true) 1 blogReqPub [blogDraft]).2).map
        Blog.publishedAt = [none] := by
  refine ⟨?_, ?_, ?_⟩ <;> decide

/-- C8 (amended): on document-save write paths with the status path
modified, a transition to `published` without a stamp sets `publishedAt` and
a transition to `draft` clears it; the update-by-id handler goes through
`findByIdAndUpdate`, which bypasses the save middleware, so a body without
an explicit `publishedAt` never changes any stored `publishedAt` there. -/
theorem blog_publishedAt_persistence (now : Nat) (b : Blog) :
    (b.status = .published → b.publishedAt = none →
      (blogPreSave true now b).publishedAt = some now) ∧
    (b.status = .draft → (blogPreSave true now b).publishedAt = none) ∧
    (∀ (isURL : String → Bool) (id : Nat) (r : BlogRequest)
        (store : List Blog), r.publishedAt = none →
      ((updateBlogById isURL id r store).2).map Blog.publishedAt
        = store.map Blog.publishedAt) := by
  refine ⟨?_, ?_, ?_⟩
  · intro h1 h2
    simp [blogPreSave, h1, h2]
  · intro h
    simp [blogPreSave, h]
  · intro isURL id r store hp
    by_cases hv : blogValidationPasses isURL r = true
    · simp only [updateBlogById, if_pos hv]
      cases hfind : store.find? (fun b => decide (b.id = id)) with
      | none => rfl
      | some x =>
          simp only [List.map_map]
          apply List.map_congr_left
          intro y hy
          by_cases hid : y.id = id
          · simp [Function.comp, hid, applyBlogUpdate, hp]
          · simp [Function.comp, hid]
    · simp [updateBlogById, hv]

/-- Concrete run of the C8 amended theorem: the save middleware stamps and
clears `publishedAt`, while update-by-id leaves the stored stamps alone. -/
theorem blog_publishedAt_persistence_witness :
    (blogPreSave true 11 blogPub0).publishedAt = some 11 ∧
    (blogPreSave true 11 blogDraft).publishedAt = none ∧
    ((updateBlogById (fun _ => true) 1 blogReqPub [blogDraft]).2).map
        Blog.publishedAt = [blogDraft].map Blog.publishedAt :=
  ⟨(blog_publishedAt_persistence 11 blogPub0).1 rfl rfl,
   (blog_publishedAt_persistence 11 blogDraft).2.1 rfl,
   (blog_publishedAt_persistence 11 blogDraft).2.2 (fun _ => true) 1
     blogReqPub [blogDraft] rfl⟩

/-- The pagination metadata block shared by the list endpoints. -/
structure Pagination where
  currentPage : Nat
  totalPages : Nat
  totalItems : Nat
  itemsPerPage : Nat
  hasNextPage : Bool
  hasPrevPage : Bool
deriving DecidableEq, Repr

/-- `Math.ceil(total / limit)` on naturals (`limit` is at least 1 on every
validated request). -/
def ceilDiv (total limit : Nat) : Nat := (total + limit - 1) / limit

/-- The metadata computed by every list handler from page, limit and the
total matched count. -/
def paginationOf (page limit total : Nat) : Pagination :=
  { currentPage := page
    totalPages := ceilDiv total limit
    totalItems := total
    itemsPerPage := limit
    hasNextPage := decide (page < ceilDiv total limit)
    hasPrevPage := decide (1 < page) }

/-- `.skip((page - 1) * limit).limit(limit)` applied to the matched, sorted
records. -/
def pageSlice (page limit : Nat) (l : List α) : List α :=
  (l.drop ((page - 1) * limit)).take limit

/-- The filter part of the `GET /api/appointment` query string. -/
structure AppointmentListQuery where
  status : Option AppointmentStatus
  priority : Option Priority
  treatmentType : Option String
  dateFrom : Option Nat
  dateTo : Option Nat
deriving DecidableEq, Repr

/-- The Mongo filter built by `GET /api/appointment`; the optional free-text
`$or`-of-`$regex` search runs in the store's regex engine and is passed in
as a predicate. -/
def appointmentMatches (q : AppointmentListQuery)
    (search : Option (Appointment → Bool)) (a : Appointment) : Bool :=
  (match q.status with | none => true | some s => decide (a.status = s)) &&
  (match q.priority with | none => true | some p => decide (a.priority = p)) &&
  (match q.treatmentType with
   | none => true
   | some t => decide (a.treatmentType = t)) &&
  (match q.dateFrom with
   | none => true
   | some d => decide (d ≤ a.preferredDate)) &&
  (match q.dateTo with
   | none => true
   | some d => decide (a.preferredDate ≤ d)) &&
  (match search with | none => true | some p => p a)

/-- The `(preferredDate asc, preferredTime asc)` sort order of the
appointment list. -/
def appointmentListLE (a b : Appointment) : Bool :=
  decide (a.preferredDate < b.preferredDate) ||
  (decide (a.preferredDate = b.preferredDate) &&
    decide (a.preferredTime ≤ b.preferredTime))

/-- `GET /api/appointment` (`src/routes/appointment.ts`): filter, sort,
skip/limit, and attach the pagination metadata computed from the total
matched count. -/
def listAppointments (q : AppointmentListQuery)
    (search : Option (Appointment → Bool)) (page limit : Nat)
    (store : List Appointment) : List Appointment × Pagination :=
  let matched := store.filter (appointmentMatches q search)
  (pageSlice page limit
    (List.insertionSort (fun a b => appointmentListLE a b = true) matched),
   paginationOf page limit matched.length)

/-- The filter part of the `GET /api/contact` query string. -/
structure ContactListQuery where
  status : Option ContactStatus
  priority : Option Priority
deriving DecidableEq, Repr

/-- The Mongo filter built by `GET /api/contact`. -/
def contactMatches (q : ContactListQuery)
    (search : Option (Contact → Bool)) (c : Contact) : Bool :=
  (match q.status with | none => true | some s => decide (c.status = s)) &&
  (match q.priority with | none => true | some p => decide (c.priority = p)) &&
  (match search with | none => true | some p => p c)

/-- The `createdAt` descending sort order of the contact list. -/
def contactListLE (a b : Contact) : Bool := decide (b.createdAt ≤ a.createdAt)

/-- `GET /api/contact` (`src/routes/contact.ts`): filter, sort by creation
time descending, skip/limit, and attach the pagination metadata. -/
def listContacts (q : ContactListQuery) (search : Option (Contact → Bool))
    (page limit : Nat) (store : List Contact) : List Contact × Pagination :=
  let matched := store.filter (contactMatches q search)
  (pageSlice page limit
    (List.insertionSort (fun a b => contactListLE a b = true) matched),
   paginationOf page limit matched.length)

/-- A slice never holds more than `limit` records. -/
lemma pageSlice_length_le (page limit : Nat) (l : List α) :
    (pageSlice page limit l).length ≤ limit := by
  simp only [pageSlice, List.length_take]
  exact Nat.min_le_left _ _

/-- A non-empty slice starts before the end of the list: the skipped prefix
is shorter than the list. -/
lemma pageSlice_nonempty_skip_lt (page limit : Nat) (l : List α)
    (h : pageSlice page limit l ≠ []) : (page - 1) * limit < l.length := by
  by_contra hle
  rw [Nat.not_lt] at hle
  exact h (by simp [pageSlice, List.drop_eq_nil_of_le hle])

/-- The slice/metadata pair of a list handler: at most `limit` records come
back, and a non-empty page implies the skipped prefix fits below the total
matched count. -/
lemma slice_bounds (page limit : Nat) (r : α → α → Prop) [DecidableRel r]
    (matched : List α) :
    (pageSlice page limit (List.insertionSort r matched)).length ≤ limit ∧
    (pageSlice page limit (List.insertionSort r matched) ≠ [] →
      limit * (page - 1) ≤ matched.length) := by
  constructor
  · exact pageSlice_length_le page limit (List.insertionSort r matched)
  · intro h
    have hlt := pageSlice_nonempty_skip_lt page limit
      (List.insertionSort r matched) h
    rw [List.length_insertionSort] at hlt
    calc limit * (page - 1) = (page - 1) * limit := Nat.mul_comm _ _
    _ ≤ matched.length := Nat.le_of_lt hlt

/-- The status filter for cancelled appointments. -/
def qCancelled : AppointmentListQuery :=
  { status := some .cancelled
    priority := none
    treatmentType := none
    dateFrom := none
    dateTo := none }

/-- Three stored cancelled appointments. -/
def apptX1 : Appointment :=
  { apptA with id := 11, status := .cancelled, preferredDate := 100 }

/-- Second cancelled appointment. -/
def apptX2 : Appointment :=
  { apptA with id := 12, status := .cancelled, preferredDate := 101 }

/-- Third cancelled appointment. -/
def apptX3 : Appointment :=
  { apptA with id := 13, status := .cancelled, preferredDate := 102 }

/-- C9 counterexample: listing cancelled appointments with page 2 and limit
5 over three matching records returns an empty page whose metadata has
`itemsPerPage * (currentPage - 1) = 5 > 3 = totalItems`: the claimed
inequality fails on pages past the data. -/
theorem pagination_invariant_counterexample :
    ¬ ((listAppointments qCancelled none 2 5 [apptX1, apptX2, apptX3]).2.itemsPerPage *
          ((listAppointments qCancelled none 2 5
            [apptX1, apptX2, apptX3]).2.currentPage - 1)
        ≤ (listAppointments qCancelled none 2 5
            [apptX1, apptX2, apptX3]).2.totalItems) ∧
    (listAppointments qCancelled none 2 5 [apptX1, apptX2, apptX3]).1 = [] ∧
    (listAppointments qCancelled none 2 5
        [apptX1, apptX2, apptX3]).2.hasNextPage = false ∧
    (listAppointments qCancelled none 2 5
        [apptX1, apptX2, apptX3]).2.hasPrevPage = true := by
  refine ⟨?_, ?_, ?_, ?_⟩ <;> decide

/-- C9 (amended): on both paginated list endpoints the returned item count
never exceeds `itemsPerPage`, and whenever the returned page is non-empty,
`itemsPerPage * (currentPage - 1)` is at most `totalItems`; an empty page
past the data may violate the product bound. -/
theorem list_pagination_bounds (q : AppointmentListQuery)
    (search : Option (Appointment → Bool)) (page limit : Nat)
    (store : List Appointment) (qc : ContactListQuery)
    (searchc : Option (Contact → Bool)) (pagec limitc : Nat)
    (storec : List Contact) :
    ((listAppointments q search page limit store).1.length
        ≤ (listAppointments q search page limit store).2.itemsPerPage) ∧
    ((listAppointments q search page limit store).1 ≠ [] →
      (listAppointments q search page limit store).2.itemsPerPage *
          ((listAppointments q search page limit store).2.currentPage - 1)
        ≤ (listAppointments q search page limit store).2.totalItems) ∧
    ((listContacts qc searchc pagec limitc storec).1.length
        ≤ (listContacts qc searchc pagec limitc storec).2.itemsPerPage) ∧
    ((listContacts qc searchc pagec limitc storec).1 ≠ [] →
      (listContacts qc searchc pagec limitc storec).2.itemsPerPage *
          ((listContacts qc searchc pagec limitc storec).2.currentPage - 1)
        ≤ (listContacts qc searchc pagec limitc storec).2.totalItems) :=
  ⟨(slice_bounds page limit (fun a b => appointmentListLE a b = true)
      (store.filter (appointmentMatches q search))).1,
   fun h => (slice_bounds page limit (fun a b => appointmentListLE a b = true)
      (store.filter (appointmentMatches q search))).2 h,
   (slice_bounds pagec limitc (fun a b => contactListLE a b = true)
      (storec.filter (contactMatches qc searchc))).1,
   fun h => (slice_bounds pagec limitc (fun a b => contactListLE a b = true)
      (storec.filter (contactMatches qc searchc))).2 h⟩

/-- Concrete run of the C9 amended theorem on non-empty first pages. -/
theorem list_pagination_bounds_witness :
    ((listAppointments qCancelled none 1 10 [apptX1]).1.length
        ≤ (listAppointments qCancelled none 1 10 [apptX1]).2.itemsPerPage) ∧
    ((listAppointments qCancelled none 1 10 [apptX1]).2.itemsPerPage *
          ((listAppointments qCancelled none 1 10 [apptX1]).2.currentPage - 1)
        ≤ (listAppointments qCancelled none 1 10 [apptX1]).2.totalItems) ∧
    ((listContacts { status := none, priority := none } none 1 10
          [mkContact 0 3 reqC]).1.length
        ≤ (listContacts { status := none, priority := none } none 1 10
            [mkContact 0 3 reqC]).2.itemsPerPage) ∧
    ((listContacts { status := none, priority := none } none 1 10
          [mkContact 0 3 reqC]).2.itemsPerPage *
          ((listContacts { status := none, priority := none } none 1 10
              [mkContact 0 3 reqC]).2.currentPage - 1)
        ≤ (listContacts { status := none, priority := none } none 1 10
            [mkContact 0 3 reqC]).2.totalItems) :=
  have h := list_pagination_bounds qCancelled none 1 10 [apptX1]
    { status := none, priority := none } none 1 10 [mkContact 0 3 reqC]
  ⟨h.1, h.2.1 (by decide), h.2.2.1, h.2.2.2 (by decide)⟩

/-- The pre-save middleware never changes the id. -/
lemma appointmentPreSave_id (m : Bool) (now : Nat) (a : Appointment) :
    (appointmentPreSave m now a).id = a.id := by
  simp only [appointmentPreSave]
  split_ifs <;> rfl

/-- The pre-save middleware never changes the status. -/
lemma appointmentPreSave_status (m : Bool) (now : Nat) (a : Appointment) :
    (appointmentPreSave m now a).status = a.status := by
  simp only [appointmentPreSave]
  split_ifs <;> rfl

/-- C10: confirming an existing appointment saves the status change before
sending the confirmation email, so when the send fails the handler raises
while the store already holds the document saved with status `confirmed`
and the applied confirmation fields: the error response and the persisted
state diverge. -/
theorem confirm_saves_before_email (now : Nat) (body : ConfirmBody)
    (store : List Appointment) (id : Nat) (a : Appointment)
    (hfind : store.find? (fun x => decide (x.id = id)) = some a) :
    (confirmAppointment now false body store id).1 = .raise none ∧
    (confirmAppointment now false body store id).2.find?
        (fun x => decide (x.id = id)) = some (confirmApply now body a) ∧
    (confirmApply now body a).status = .confirmed := by
  have hid : a.id = id := by
    have hpa := List.find?_some hfind
    simpa using hpa
  have hcid : (confirmApply now body a).id = id := by
    simp only [confirmApply]
    rw [appointmentPreSave_id]
    exact hid
  refine ⟨?_, ?_, ?_⟩
  · simp [confirmAppointment, hfind]
  · have h2 : (confirmAppointment now false body store id).2
        = store.map (fun x => if x.id = id then confirmApply now body a
                              else x) := by
      simp [confirmAppointment, hfind, confirmApply]
    rw [h2]
    exact find?_write_back _ id store a hcid hfind
  · simp only [confirmApply]
    rw [appointmentPreSave_status]

/-- A confirm body carrying no overrides. -/
def emptyConfirmBody : ConfirmBody :=
  { confirmedDate := none, confirmedTime := none, notes := none }

/-- Concrete run of the C10 theorem: a failing confirmation email leaves a
raised error next to a store whose record was already confirmed. -/
theorem confirm_saves_before_email_witness :
    (confirmAppointment 7 false emptyConfirmBody [apptA] 1).1 = .raise none ∧
    (confirmAppointment 7 false emptyConfirmBody [apptA] 1).2.find?
        (fun x => decide (x.id = 1)) = some (confirmApply 7 emptyConfirmBody
          apptA) ∧
    (confirmApply 7 emptyConfirmBody apptA).status = .confirmed :=
  confirm_saves_before_email 7 emptyConfirmBody [apptA] 1 apptA rfl
